import Mathlib

/-!
Verification of the trading-system utility core (`utils.py`, `config.py`).

The Python code is shallowly embedded: Python `datetime` values are modelled
by `PyDatetime` (awareness flag plus age in seconds relative to the current
UTC instant), the dynamically-typed `created_at` inputs by `DTInput`,
exceptions by `Option`/`Except` results, and dictionaries by association
lists.  Numeric literals from the source are modelled as rationals; at every
value appearing in the source the Python float arithmetic involved is exact,
so the rational model agrees with the executed arithmetic.
-/

/-- Model of a Python `datetime` object: whether it is timezone-aware, and
the value of `(datetime.now(timezone.utc) - self).total_seconds()` (meaningful
when the object is aware; subtracting a naive datetime from an aware one
raises `TypeError` in Python, which the model tracks via the `aware` flag). -/
structure PyDatetime where
  aware : Bool
  ageSeconds : ℚ
deriving DecidableEq, Repr

/-- Model of the possible Python values reaching `parse_datetime` /
`calculate_age_seconds` / the `created_at` attribute of an order:
`pyNone` is `None` (or a missing attribute, since `getattr(order, _, None)`
defaults to `None`); `dt` a `datetime` object; `parseableStr` a (necessarily
non-empty) string that `dateutil.parser.parse` turns into the given datetime;
`badStr` a string on which `dateutil.parser.parse` raises (this includes
`""`); `otherVal` any other Python value, carrying only its truthiness. -/
inductive DTInput where
  | pyNone
  | dt (d : PyDatetime)
  | parseableStr (d : PyDatetime)
  | badStr (s : String)
  | otherVal (truthy : Bool)
deriving DecidableEq, Repr

/-- Python truthiness (`if not created_at:`) of a `DTInput`: `None` is falsy,
datetime objects are always truthy, a string is truthy iff non-empty (and a
parseable string is never empty). -/
def DTInput.pyTruthy : DTInput → Bool
  | .pyNone => false
  | .dt _ => true
  | .parseableStr _ => true
  | .badStr s => !s.isEmpty
  | .otherVal t => t

/-- `DateTimeUtils.parse_datetime` (utils.py lines 21-46): `None` for `None`,
the object itself for a `datetime`, the `dateutil` parse result for a
parseable string, and `None` (after catching the exception) for an
unparseable string or for any non-datetime, non-string input.  The result is
kept in `DTInput` (it is always `pyNone` or `dt _`) so that composing the
function with itself is expressible. -/
def DateTimeUtils.parse_datetime : DTInput → DTInput
  | .pyNone => .pyNone
  | .dt d => .dt d
  | .parseableStr d => .dt d
  | .badStr _ => .pyNone
  | .otherVal _ => .pyNone

/-- `DateTimeUtils.calculate_age_seconds` (utils.py lines 48-67): parse the
input; on `None` return `None`; otherwise return
`(datetime.now(timezone.utc) - parsed_dt).total_seconds()`, where the
subtraction raises `TypeError` for a naive `parsed_dt` — the `except` branch
then returns `None`. -/
def DateTimeUtils.calculate_age_seconds (created_at : DTInput) : Option ℚ :=
  match DateTimeUtils.parse_datetime created_at with
  | .dt parsed_dt => if parsed_dt.aware then some parsed_dt.ageSeconds else none
  | _ => none

/-- Structured model of the reason string returned by
`OrderUtils.is_order_stale`; each constructor corresponds to one of the five
distinct message templates in utils.py lines 98-112, carrying the data
interpolated into the message. -/
inductive StaleReason where
  | statusNotNew (status : Option String)
  | noCreationTime
  | couldNotCalculateAge
  | ageExceedsThreshold (age threshold : ℚ)
  | ageUnderThreshold (age : ℚ)
deriving DecidableEq, Repr

/-- Model of an order object as probed by `getattr` in utils.py: each
attribute may be missing (`none`), and `created_at` may hold any Python
value. -/
structure Order where
  status : Option String := none
  created_at : DTInput := .pyNone
  id : Option String := none
  symbol : Option String := none
  type : Option String := none
  side : Option String := none
deriving DecidableEq, Repr

/-- `OrderUtils.is_order_stale` (utils.py lines 83-112): not stale unless the
status is `'new'`; not stale when `created_at` is falsy or its age cannot be
computed; stale exactly when the computed age exceeds the threshold (default
120 seconds). -/
def OrderUtils.is_order_stale (order : Order) (threshold_seconds : ℚ := 120) :
    Bool × StaleReason :=
  if order.status ≠ some "new" then
    (false, .statusNotNew order.status)
  else if !order.created_at.pyTruthy then
    (false, .noCreationTime)
  else
    match DateTimeUtils.calculate_age_seconds order.created_at with
    | none => (false, .couldNotCalculateAge)
    | some age_seconds =>
      if age_seconds > threshold_seconds then
        (true, .ageExceedsThreshold age_seconds threshold_seconds)
      else
        (false, .ageUnderThreshold age_seconds)

/-- Python truthiness of an `Optional[str]` value: `None` and `""` are falsy. -/
def optStrTruthy : Option String → Bool
  | none => false
  | some s => !s.isEmpty

/-- Replace the age (relative to now) carried by a datetime-valued or
parseable-string-valued input, leaving every other input unchanged.  Used to
speak about "the same order observed at a different age". -/
def DTInput.withAge : DTInput → ℚ → DTInput
  | .dt d, a => .dt { d with ageSeconds := a }
  | .parseableStr d, a => .parseableStr { d with ageSeconds := a }
  | x, _ => x

/-- Outcome of one `gateway.cancel_order(order_id)` call as observed by the
`try` block in `cleanup_stale_orders`: the call may raise (`exc`), return a
falsy response object (`noneResp`), or return a response whose `success`
field is the given boolean. -/
inductive CancelResult where
  | exc
  | noneResp
  | resp (success : Bool)
deriving DecidableEq, Repr

/-- The truthiness-and-success test `if cancel_response and
cancel_response.success:` applied to a cancel outcome; a raised exception is
handled by the surrounding `except` and likewise yields no increment. -/
def CancelResult.isSuccess : CancelResult → Bool
  | .resp true => true
  | _ => false

/-- Model of the API gateway as seen by `cleanup_stale_orders`: the result of
`await gateway.get_orders(status='open')` (either a raised exception or a
list of order objects) and the outcome of `await gateway.cancel_order(id)`
for each id. -/
structure Gateway where
  get_orders : Except Unit (List Order)
  cancel_order : String → CancelResult

/-- `if symbol:` filtering of utils.py lines 133-137: when `symbol` is truthy
(non-`None` and non-empty) keep only the orders whose `symbol` attribute
equals it, otherwise keep every open order. -/
def OrderUtils.cleanup_targets (open_orders : List Order) (symbol : Option String) :
    List Order :=
  match symbol with
  | some s =>
    if !s.isEmpty then
      open_orders.filter (fun order => order.symbol == some s)
    else open_orders
  | none => open_orders

/-- The `for order in target_orders:` loop of utils.py lines 141-160, one
order at a time: when the order is stale and its id truthy, `cancel_order` is
called (the id is recorded in the second component) and the count in the
first component grows by one exactly when the response is truthy and
successful; exceptions from a single cancellation are caught and the loop
continues with the remaining orders. -/
def OrderUtils.cleanup_loop (gw : Gateway) (threshold_seconds : ℚ) :
    List Order → ℕ × List String
  | [] => (0, [])
  | order :: rest =>
    let tail := OrderUtils.cleanup_loop gw threshold_seconds rest
    match order.id with
    | some order_id =>
      if (OrderUtils.is_order_stale order threshold_seconds).1 && !order_id.isEmpty then
        ((if (gw.cancel_order order_id).isSuccess then 1 else 0) + tail.1,
          order_id :: tail.2)
      else tail
    | none => tail

/-- `OrderUtils.cleanup_stale_orders` (utils.py lines 114-170): fetch the
open orders (any exception in the body is caught and `0` returned), return
`0` when there are none, filter by symbol, and run the cancellation loop,
returning the number of successfully cancelled orders. -/
def OrderUtils.cleanup_stale_orders (gw : Gateway) (symbol : Option String := none)
    (threshold_seconds : ℚ := 120) : ℕ :=
  match gw.get_orders with
  | .error _ => 0
  | .ok open_orders =>
    if open_orders.isEmpty then 0
    else
      let target_orders := OrderUtils.cleanup_targets open_orders symbol
      (OrderUtils.cleanup_loop gw threshold_seconds target_orders).1

/-- The sequence of order ids for which `cleanup_stale_orders` issues a
`gateway.cancel_order` call; projection of the same loop. -/
def OrderUtils.cleanup_cancel_calls (gw : Gateway) (symbol : Option String)
    (threshold_seconds : ℚ) : List String :=
  match gw.get_orders with
  | .error _ => []
  | .ok open_orders =>
    if open_orders.isEmpty then []
    else
      let target_orders := OrderUtils.cleanup_targets open_orders symbol
      (OrderUtils.cleanup_loop gw threshold_seconds target_orders).2

/-- `ConfigurationValidator.get_profit_taking_config` (utils.py lines
182-188): the standardized profit-taking levels and scale-out percentages. -/
def ConfigurationValidator.get_profit_taking_config : List ℚ × List ℚ :=
  ([5, 8, 12, 20], [20/100, 30/100, 50/100, 75/100])

/-- Model of a Python value stored in a configuration dictionary
(`Dict[str, Any]`), as far as `ConfigurationValidator.validate_configuration`
inspects them: a number, a list of numbers, or a string. -/
inductive Value where
  | num (q : ℚ)
  | numList (l : List ℚ)
  | str (s : String)
deriving DecidableEq, Repr

/-- A Python dictionary with string keys, modelled as an association list in
insertion order (Python dictionaries preserve insertion order and never hold
a key twice). -/
abbrev Dict := List (String × Value)

/-- Dictionary lookup, `d[k]` / `d.get(k)`. -/
def dictGet : Dict → String → Option Value
  | [], _ => none
  | (k₁, v) :: rest, k => if k₁ = k then some v else dictGet rest k

/-- The membership test `k in d`. -/
def dictHasKey : Dict → String → Bool
  | [], _ => false
  | (k₁, _) :: rest, k => k₁ == k || dictHasKey rest k

/-- Dictionary assignment `d[k] = v`: an existing key keeps its position and
gets the new value, a new key is appended at the end. -/
def dictSet (d : Dict) (k : String) (v : Value) : Dict :=
  if dictHasKey d k then
    d.map (fun kv => if kv.1 = k then (k, v) else kv)
  else d ++ [(k, v)]

/-- The Python comparison `v < q` for a dictionary value against a number:
defined for numbers, a `TypeError` (modelled as `none`) for lists and
strings. -/
def pyLtNum : Value → ℚ → Option Bool
  | .num x, q => some (decide (x < q))
  | _, _ => none

/-- `ConfigurationValidator.validate_configuration` (utils.py lines
190-206).  The result pairs the caller's dictionary as it stands after the
call with the returned dictionary: `validated = config_dict.copy()` makes
the returned dictionary a fresh object, so the subsequent item assignments
leave the caller's dictionary untouched.  `none` models a `TypeError`
propagating out of the comparison `validated['max_active_positions'] < 10`
on a non-numeric value. -/
def ConfigurationValidator.validate_configuration (config_dict : Dict) :
    Option (Dict × Dict) :=
  let validated := config_dict
  let afterPositions : Option Dict :=
    match dictGet validated "max_active_positions" with
    | some v =>
      match pyLtNum v 10 with
      | none => none
      | some true => some (dictSet validated "max_active_positions" (.num 30))
      | some false => some validated
    | none => some validated
  match afterPositions with
  | none => none
  | some validated₁ =>
    let profit_levels := ConfigurationValidator.get_profit_taking_config.1
    let profit_percentages := ConfigurationValidator.get_profit_taking_config.2
    let validated₂ := dictSet validated₁ "profit_taking_levels" (.numList profit_levels)
    let validated₃ :=
      dictSet validated₂ "profit_taking_percentages" (.numList profit_percentages)
    some (config_dict, validated₃)

/-- `MarketRegime` (config.py lines 19-24): the fixed set of five market
regimes. -/
inductive MarketRegime where
  | BULL_TRENDING
  | BEAR_TRENDING
  | VOLATILE_RANGE
  | SECTOR_ROTATION
  | LOW_VOLATILITY
deriving DecidableEq, BEq, Repr

/-- A value inside a per-regime screening profile. -/
inductive CriteriaValue where
  | num (q : ℚ)
  | str (s : String)
  | boolV (b : Bool)
  | strList (l : List String)
deriving DecidableEq, Repr

/-- The base filters and the per-regime profile table of `SCREENING_CRITERIA`
(config.py lines 93-145), transcribed entry for entry. -/
structure ScreeningCriteria where
  min_price : ℚ
  max_price : ℚ
  min_market_cap : ℕ
  min_avg_volume : ℕ
  max_spread_pct : ℚ
  exclude_penny_stocks : Bool
  regime_criteria : List (MarketRegime × List (String × CriteriaValue))

def SCREENING_CRITERIA : ScreeningCriteria where
  min_price := 5
  max_price := 1000
  min_market_cap := 500000000
  min_avg_volume := 500000
  max_spread_pct := 2
  exclude_penny_stocks := true
  regime_criteria :=
    [ (.BULL_TRENDING,
        [ ("focus_on", .str "gainers")
        , ("min_daily_change", .num (-5/10))
        , ("min_volume_ratio", .num (11/10))
        , ("preferred_sectors",
            .strList ["TECHNOLOGY", "GROWTH", "CONSUMER_DISCRETIONARY", "EQUITY"])
        , ("avoid_sectors", .strList ["UTILITIES", "DEFENSIVE"])
        , ("max_position_size_pct", .num 8) ])
    , (.BEAR_TRENDING,
        [ ("focus_on", .str "oversold_bounces")
        , ("max_daily_change", .num (-3))
        , ("min_volume_ratio", .num 2)
        , ("preferred_sectors", .strList ["DEFENSIVE", "HEALTHCARE", "UTILITIES"])
        , ("avoid_sectors", .strList ["GROWTH", "HIGH_BETA"]) ])
    , (.VOLATILE_RANGE,
        [ ("focus_on", .str "both_directions")
        , ("min_volatility_rank", .num 70)
        , ("min_volume_ratio", .num 2)
        , ("preferred_sectors", .strList ["ALL"])
        , ("strategy_bias", .str "mean_reversion") ])
    , (.SECTOR_ROTATION,
        [ ("focus_on", .str "sector_leaders")
        , ("min_relative_strength", .num (12/10))
        , ("sector_momentum_required", .boolV true)
        , ("cross_sector_analysis", .boolV true) ])
    , (.LOW_VOLATILITY,
        [ ("focus_on", .str "breakouts")
        , ("min_consolidation_days", .num 3)
        , ("volume_expansion_required", .boolV true)
        , ("technical_breakout_required", .boolV true)
        , ("max_position_size_pct", .num 8)
        , ("min_volume_ratio", .num (13/10)) ]) ]

/-- The fields of `RATE_LIMIT_CONFIG` (config.py lines 148-169) used by
`validate_configuration`, kept as parameters so the budget check can be
stated for every configuration. -/
structure RateLimitConfig where
  max_requests_per_minute : ℕ
  rate_limit_buffer : ℚ
  budget_allocation : List (String × ℕ)

def RATE_LIMIT_CONFIG : RateLimitConfig where
  max_requests_per_minute := 200
  rate_limit_buffer := 85/100
  budget_allocation :=
    [ ("broad_scan", 25)
    , ("deep_dive", 50)
    , ("trade_execution", 35)
    , ("position_monitoring", 40)
    , ("emergency_reserve", 20) ]

/-- The fields of `RISK_CONFIG` (config.py lines 224-260) that the claims
and `validate_configuration` touch, transcribed from the source. -/
structure RiskConfig where
  max_position_risk_pct : ℚ
  max_daily_drawdown_pct : ℚ
  stop_loss_pct : ℚ
  max_position_loss_pct : ℚ
  profit_taking_levels : List ℚ
  profit_taking_percentages : List ℚ

def RISK_CONFIG : RiskConfig where
  max_position_risk_pct := 3
  max_daily_drawdown_pct := 6
  stop_loss_pct := 75/10
  max_position_loss_pct := -5
  profit_taking_levels := [10, 20, 30]
  profit_taking_percentages := [25/100, 35/100, 40/100]

/-- `WATCHLIST_CONFIG['max_size']` (config.py line 173). -/
def WATCHLIST_CONFIG_max_size : ℕ := 25

/-- Python `int()` applied to a rational: truncation toward zero. -/
def pyInt (q : ℚ) : ℤ :=
  if q < 0 then -⌊-q⌋ else ⌊q⌋

/-- The validation errors `validate_configuration` (config.py lines 339-369)
can collect, one constructor per `errors.append` site, carrying the data
interpolated into the message. -/
inductive ConfigError where
  | apiKeyIdNotSet
  | apiSecretKeyNotSet
  | budgetAllocationExceedsLimit (total : ℕ) (limit : ℤ)
  | positionRiskTooHigh
  | dailyDrawdownTooHigh
  | watchlistTooLarge
deriving DecidableEq, Repr

/-- The error list built by `validate_configuration` (config.py lines
339-365), in source order.  `alpaca_key_id` and `alpaca_secret_key` are the
environment-supplied `API_CONFIG` credentials (`os.getenv` yields `None` or a
string, and `not value` is the falsiness test); the rate-limit configuration
is a parameter, while the risk and watchlist checks read the module
constants. -/
def validate_configuration_errors (alpaca_key_id alpaca_secret_key : Option String)
    (rl : RateLimitConfig) : List ConfigError :=
  (if !optStrTruthy alpaca_key_id then [ConfigError.apiKeyIdNotSet] else []) ++
  (if !optStrTruthy alpaca_secret_key then [ConfigError.apiSecretKeyNotSet] else []) ++
  (let total_budget := (rl.budget_allocation.map Prod.snd).sum
   let max_budget := pyInt ((rl.max_requests_per_minute : ℚ) * rl.rate_limit_buffer)
   if (total_budget : ℤ) > max_budget then
     [ConfigError.budgetAllocationExceedsLimit total_budget max_budget]
   else []) ++
  (if RISK_CONFIG.max_position_risk_pct > 5 then [ConfigError.positionRiskTooHigh] else []) ++
  (if RISK_CONFIG.max_daily_drawdown_pct > 10 then [ConfigError.dailyDrawdownTooHigh] else []) ++
  (if WATCHLIST_CONFIG_max_size > 50 then [ConfigError.watchlistTooLarge] else [])

/-- `validate_configuration` itself: raises `ValueError` carrying the error
list when it is non-empty (modelled as `Except.error`), otherwise returns
`True`. -/
def validate_configuration (alpaca_key_id alpaca_secret_key : Option String)
    (rl : RateLimitConfig) : Except (List ConfigError) Bool :=
  let errors := validate_configuration_errors alpaca_key_id alpaca_secret_key rl
  if errors.isEmpty then .ok true else .error errors

/-! ### Helper lemmas -/

theorem is_order_stale_fst_iff (o : Order) (T : ℚ) :
    (OrderUtils.is_order_stale o T).1 = true ↔
      o.status = some "new" ∧ o.created_at.pyTruthy = true ∧
        ∃ a, DateTimeUtils.calculate_age_seconds o.created_at = some a ∧ a > T := by
  unfold OrderUtils.is_order_stale
  by_cases hs : o.status = some "new"
  · by_cases ht : o.created_at.pyTruthy
    · cases hc : DateTimeUtils.calculate_age_seconds o.created_at with
      | none => simp [hs, ht, hc]
      | some a =>
        by_cases ha : a > T
        · simp [hs, ht, hc, ha]
        · simp [hs, ht, hc, ha]
    · simp [hs, ht]
  · simp [hs]

theorem is_order_stale_statusNotNew (o : Order) (T : ℚ) (h : o.status ≠ some "new") :
    OrderUtils.is_order_stale o T = (false, .statusNotNew o.status) := by
  simp [OrderUtils.is_order_stale, h]

theorem is_order_stale_stale_reason (o : Order) (T : ℚ)
    (h : (OrderUtils.is_order_stale o T).1 = true) :
    ∃ a, DateTimeUtils.calculate_age_seconds o.created_at = some a ∧ a > T ∧
      (OrderUtils.is_order_stale o T).2 = .ageExceedsThreshold a T := by
  obtain ⟨hs, ht, a, hc, ha⟩ := (is_order_stale_fst_iff o T).mp h
  refine ⟨a, hc, ha, ?_⟩
  simp [OrderUtils.is_order_stale, hs, ht, hc, ha]

/-! ### Claim theorems -/

/-- C1: `OrderUtils.is_order_stale(order, T)` reports stale exactly when the
status is `'new'`, `created_at` is present (truthy) and yields a computable
age, and that age exceeds `T`; the default threshold is 120 seconds; a
non-`'new'` status produces a reason citing the status, and a stale verdict
produces a reason citing the age exceeding the threshold; an order with
status `'new'` and age 150s is stale under the default 120s threshold with
the age-based reason, while a `'filled'` order of the same age is not stale. -/
theorem order_staleness_spec :
    (∀ (o : Order) (T : ℚ),
        (OrderUtils.is_order_stale o T).1 = true ↔
          o.status = some "new" ∧ o.created_at.pyTruthy = true ∧
            ∃ a, DateTimeUtils.calculate_age_seconds o.created_at = some a ∧ a > T) ∧
    (∀ (o : Order) (T : ℚ), o.status ≠ some "new" →
        OrderUtils.is_order_stale o T = (false, .statusNotNew o.status)) ∧
    (∀ (o : Order) (T : ℚ), (OrderUtils.is_order_stale o T).1 = true →
        ∃ a, DateTimeUtils.calculate_age_seconds o.created_at = some a ∧ a > T ∧
          (OrderUtils.is_order_stale o T).2 = .ageExceedsThreshold a T) ∧
    OrderUtils.is_order_stale
        { status := some "new", created_at := .dt { aware := true, ageSeconds := 150 } } =
      (true, .ageExceedsThreshold 150 120) ∧
    OrderUtils.is_order_stale
        { status := some "filled", created_at := .dt { aware := true, ageSeconds := 150 } } =
      (false, .statusNotNew (some "filled")) := by
  refine ⟨is_order_stale_fst_iff, is_order_stale_statusNotNew,
    is_order_stale_stale_reason, ?_, ?_⟩ <;> decide

/-- Witness for C1 at the concrete scenario orders. -/
theorem order_staleness_spec_witness :
    (OrderUtils.is_order_stale
        { status := some "filled", created_at := .dt { aware := true, ageSeconds := 150 } }
        120).2 = .statusNotNew (some "filled") := by
  have h := order_staleness_spec.2.1
    { status := some "filled", created_at := .dt { aware := true, ageSeconds := 150 } }
    120 (by decide)
  rw [h]

/-- C2: a missing/`None` or unparseable `created_at` yields a non-stale
verdict (and, the model being total, no exception escapes);
`parse_datetime` returns `None` on every input that is neither a datetime
nor a parseable string; `calculate_age_seconds` returns `None` whenever
parsing fails or the age subtraction raises (naive datetime). -/
theorem parse_failure_isolation :
    (∀ (o : Order) (T : ℚ),
        (o.created_at = .pyNone ∨ ∃ s, o.created_at = .badStr s) →
        (OrderUtils.is_order_stale o T).1 = false) ∧
    (∀ x : DTInput, (∀ d, x ≠ .dt d) → (∀ d, x ≠ .parseableStr d) →
        DateTimeUtils.parse_datetime x = .pyNone) ∧
    (∀ x : DTInput, DateTimeUtils.parse_datetime x = .pyNone →
        DateTimeUtils.calculate_age_seconds x = none) ∧
    (∀ d : PyDatetime, d.aware = false →
        DateTimeUtils.calculate_age_seconds (.dt d) = none ∧
        DateTimeUtils.calculate_age_seconds (.parseableStr d) = none) := by
  refine ⟨?_, ?_, ?_, ?_⟩
  · intro o T h
    rcases h with h | ⟨s, h⟩
    · cases hb : (OrderUtils.is_order_stale o T).1
      · rfl
      · obtain ⟨-, ht, -⟩ := (is_order_stale_fst_iff o T).mp hb
        rw [h] at ht
        exact absurd ht (by decide)
    · cases hb : (OrderUtils.is_order_stale o T).1
      · rfl
      · obtain ⟨-, -, a, hc, -⟩ := (is_order_stale_fst_iff o T).mp hb
        rw [h] at hc
        simp [DateTimeUtils.calculate_age_seconds, DateTimeUtils.parse_datetime] at hc
  · intro x hdt hps
    cases x with
    | pyNone => rfl
    | dt d => exact absurd rfl (hdt d)
    | parseableStr d => exact absurd rfl (hps d)
    | badStr s => rfl
    | otherVal t => rfl
  · intro x hx
    simp [DateTimeUtils.calculate_age_seconds, hx]
  · intro d hd
    constructor <;>
      simp [DateTimeUtils.calculate_age_seconds, DateTimeUtils.parse_datetime, hd]

/-- Witness for C2 at concrete inputs. -/
theorem parse_failure_isolation_witness :
    (OrderUtils.is_order_stale
        { status := some "new", created_at := .badStr "not-a-date" } 120).1 = false ∧
    DateTimeUtils.parse_datetime (.otherVal true) = .pyNone ∧
    DateTimeUtils.calculate_age_seconds (.badStr "not-a-date") = none ∧
    DateTimeUtils.calculate_age_seconds (.dt { aware := false, ageSeconds := 150 }) = none := by
  refine ⟨?_, ?_, ?_, ?_⟩
  · exact parse_failure_isolation.1
      { status := some "new", created_at := .badStr "not-a-date" } 120
      (Or.inr ⟨"not-a-date", rfl⟩)
  · exact parse_failure_isolation.2.1 (.otherVal true)
      (by intro d h; cases h) (by intro d h; cases h)
  · exact parse_failure_isolation.2.2.1 (.badStr "not-a-date") rfl
  · exact (parse_failure_isolation.2.2.2 { aware := false, ageSeconds := 150 } rfl).1

/-- C9: `parse_datetime` is the identity on datetime inputs, maps `None` to
`None`, and is idempotent on every input. -/
theorem parse_datetime_idempotent :
    (∀ d : PyDatetime, DateTimeUtils.parse_datetime (.dt d) = .dt d) ∧
    DateTimeUtils.parse_datetime .pyNone = .pyNone ∧
    (∀ x : DTInput,
        DateTimeUtils.parse_datetime (DateTimeUtils.parse_datetime x) =
          DateTimeUtils.parse_datetime x) := by
  refine ⟨fun d => rfl, rfl, fun x => ?_⟩
  cases x <;> rfl

theorem calculate_age_withAge (x : DTInput) (A a : ℚ)
    (h : DateTimeUtils.calculate_age_seconds (x.withAge A) = some a) :
    a = A ∧ ∀ B : ℚ,
      DateTimeUtils.calculate_age_seconds (x.withAge B) = some B ∧
        (x.withAge B).pyTruthy = true := by
  cases x with
  | dt d =>
    cases hw : d.aware with
    | true =>
      simp [DTInput.withAge, DateTimeUtils.calculate_age_seconds,
        DateTimeUtils.parse_datetime, hw] at h
      exact ⟨h.symm, fun B => by
        simp [DTInput.withAge, DateTimeUtils.calculate_age_seconds,
          DateTimeUtils.parse_datetime, DTInput.pyTruthy, hw]⟩
    | false =>
      simp [DTInput.withAge, DateTimeUtils.calculate_age_seconds,
        DateTimeUtils.parse_datetime, hw] at h
  | parseableStr d =>
    cases hw : d.aware with
    | true =>
      simp [DTInput.withAge, DateTimeUtils.calculate_age_seconds,
        DateTimeUtils.parse_datetime, hw] at h
      exact ⟨h.symm, fun B => by
        simp [DTInput.withAge, DateTimeUtils.calculate_age_seconds,
          DateTimeUtils.parse_datetime, DTInput.pyTruthy, hw]⟩
    | false =>
      simp [DTInput.withAge, DateTimeUtils.calculate_age_seconds,
        DateTimeUtils.parse_datetime, hw] at h
  | pyNone =>
    simp [DTInput.withAge, DateTimeUtils.calculate_age_seconds,
      DateTimeUtils.parse_datetime] at h
  | badStr s =>
    simp [DTInput.withAge, DateTimeUtils.calculate_age_seconds,
      DateTimeUtils.parse_datetime] at h
  | otherVal t =>
    simp [DTInput.withAge, DateTimeUtils.calculate_age_seconds,
      DateTimeUtils.parse_datetime] at h

/-- C5: staleness is monotonic in age at a fixed threshold — an order with
status `'new'` that is stale when observed at age `A` is still stale when
the same order is observed at any larger age `B`. -/
theorem staleness_monotone_in_age :
    ∀ (o : Order) (A B T : ℚ), A < B →
      (OrderUtils.is_order_stale
          { o with created_at := o.created_at.withAge A } T).1 = true →
      (OrderUtils.is_order_stale
          { o with created_at := o.created_at.withAge B } T).1 = true := by
  intro o A B T hAB h
  obtain ⟨hs, -, a, hc, ha⟩ := (is_order_stale_fst_iff _ T).mp h
  obtain ⟨haA, hB⟩ := calculate_age_withAge o.created_at A a hc
  refine (is_order_stale_fst_iff _ T).mpr ⟨hs, (hB B).2, B, (hB B).1, ?_⟩
  calc T < a := ha
    _ = A := haA
    _ < B := hAB

/-- Witness for C5: a `'new'` order stale at age 150s under a 120s threshold
is still stale at age 300s. -/
theorem staleness_monotone_in_age_witness :
    (OrderUtils.is_order_stale
        { status := some "new",
          created_at := DTInput.withAge (.dt { aware := true, ageSeconds := 0 }) 300 }
        120).1 = true := by
  exact staleness_monotone_in_age
    { status := some "new", created_at := .dt { aware := true, ageSeconds := 0 } }
    150 300 120 (by norm_num) (by decide)

theorem cleanup_loop_count_eq (gw : Gateway) (T : ℚ) (l : List Order) :
    (OrderUtils.cleanup_loop gw T l).1 =
      (OrderUtils.cleanup_loop gw T l).2.countP
        (fun oid => (gw.cancel_order oid).isSuccess) := by
  induction l with
  | nil => rfl
  | cons o rest ih =>
    cases ho : o.id with
    | none => simpa [OrderUtils.cleanup_loop, ho] using ih
    | some oid =>
      by_cases hc :
          ((OrderUtils.is_order_stale o T).1 && !oid.isEmpty) = true
      · simp only [OrderUtils.cleanup_loop, ho, hc, if_true, List.countP_cons]
        rw [ih]
        cases (gw.cancel_order oid).isSuccess <;> simp [Nat.add_comm]
      · simpa [OrderUtils.cleanup_loop, ho, hc] using ih

theorem cleanup_loop_tail_subset (gw : Gateway) (T : ℚ) (o : Order)
    (rest : List Order) :
    (OrderUtils.cleanup_loop gw T rest).2 ⊆
      (OrderUtils.cleanup_loop gw T (o :: rest)).2 := by
  intro x hx
  cases ho : o.id with
  | none => simpa [OrderUtils.cleanup_loop, ho] using hx
  | some oid =>
    by_cases hc : ((OrderUtils.is_order_stale o T).1 && !oid.isEmpty) = true
    · simp [OrderUtils.cleanup_loop, ho, hc]
      exact Or.inr hx
    · simpa [OrderUtils.cleanup_loop, ho, hc] using hx

theorem cleanup_loop_mem_of_stale (gw : Gateway) (T : ℚ) (l : List Order)
    (o : Order) (ho : o ∈ l) (hst : (OrderUtils.is_order_stale o T).1 = true)
    (oid : String) (hid : o.id = some oid) (hne : oid.isEmpty = false) :
    oid ∈ (OrderUtils.cleanup_loop gw T l).2 := by
  induction l with
  | nil => cases ho
  | cons x rest ih =>
    rcases List.mem_cons.mp ho with rfl | hmem
    · simp [OrderUtils.cleanup_loop, hid, hst, hne]
    · exact cleanup_loop_tail_subset gw T x rest (ih hmem)

theorem cleanup_loop_mem_src (gw : Gateway) (T : ℚ) (l : List Order)
    (oid : String) (h : oid ∈ (OrderUtils.cleanup_loop gw T l).2) :
    ∃ o ∈ l, o.id = some oid ∧ (OrderUtils.is_order_stale o T).1 = true := by
  induction l with
  | nil => cases h
  | cons x rest ih =>
    cases hx : x.id with
    | none =>
      rw [show OrderUtils.cleanup_loop gw T (x :: rest) =
            OrderUtils.cleanup_loop gw T rest by
          simp [OrderUtils.cleanup_loop, hx]] at h
      obtain ⟨o, hm, hi, hs⟩ := ih h
      exact ⟨o, List.mem_cons_of_mem x hm, hi, hs⟩
    | some xid =>
      by_cases hc : ((OrderUtils.is_order_stale x T).1 && !xid.isEmpty) = true
      · rw [show (OrderUtils.cleanup_loop gw T (x :: rest)).2 =
              xid :: (OrderUtils.cleanup_loop gw T rest).2 by
            simp [OrderUtils.cleanup_loop, hx, hc]] at h
        rcases List.mem_cons.mp h with rfl | hmem
        · exact ⟨x, List.mem_cons_self x rest, hx,
            (Bool.and_eq_true _ _ ▸ hc).1⟩
        · obtain ⟨o, hm, hi, hs⟩ := ih hmem
          exact ⟨o, List.mem_cons_of_mem x hm, hi, hs⟩
      · rw [show OrderUtils.cleanup_loop gw T (x :: rest) =
              OrderUtils.cleanup_loop gw T rest by
            simp [OrderUtils.cleanup_loop, hx, hc]] at h
        obtain ⟨o, hm, hi, hs⟩ := ih h
        exact ⟨o, List.mem_cons_of_mem x hm, hi, hs⟩

/-- C6: `cleanup_stale_orders` returns `0` when fetching the open orders
fails, otherwise returns exactly the number of issued `cancel_order` calls
whose response reports success (a per-order cancellation failure or raised
exception contributes nothing but stops nothing); every stale order of the
target list with a truthy id does get its `cancel_order` call.  The model is
a total function: no exception reaches the caller. -/
theorem cleanup_stale_orders_outcome :
    ∀ (gw : Gateway) (symbol : Option String) (T : ℚ),
      (∀ e : Unit, gw.get_orders = .error e →
        OrderUtils.cleanup_stale_orders gw symbol T = 0) ∧
      (OrderUtils.cleanup_stale_orders gw symbol T =
        (OrderUtils.cleanup_cancel_calls gw symbol T).countP
          (fun oid => (gw.cancel_order oid).isSuccess)) ∧
      (∀ l, gw.get_orders = .ok l →
        ∀ o ∈ OrderUtils.cleanup_targets l symbol,
          (OrderUtils.is_order_stale o T).1 = true →
          ∀ oid, o.id = some oid → oid.isEmpty = false →
            oid ∈ OrderUtils.cleanup_cancel_calls gw symbol T) := by
  intro gw symbol T
  refine ⟨?_, ?_, ?_⟩
  · intro e he
    simp [OrderUtils.cleanup_stale_orders, he]
  · cases hg : gw.get_orders with
    | error e => simp [OrderUtils.cleanup_stale_orders,
        OrderUtils.cleanup_cancel_calls, hg]
    | ok l =>
      by_cases hl : l.isEmpty
      · simp [OrderUtils.cleanup_stale_orders,
          OrderUtils.cleanup_cancel_calls, hg, hl]
      · simp only [OrderUtils.cleanup_stale_orders,
          OrderUtils.cleanup_cancel_calls, hg, hl, if_false]
        exact cleanup_loop_count_eq gw T (OrderUtils.cleanup_targets l symbol)
  · intro l hg o hmem hst oid hid hne
    have hl : l.isEmpty = false := by
      cases l with
      | nil =>
        exfalso
        cases symbol with
        | none => cases hmem
        | some s =>
          by_cases hs : s.isEmpty <;>
            simp [OrderUtils.cleanup_targets, hs] at hmem
      | cons a as => rfl
    simp only [OrderUtils.cleanup_cancel_calls, hg, hl, if_false]
    exact cleanup_loop_mem_of_stale gw T _ o hmem hst oid hid hne

/-- A gateway whose `get_orders` call raises. -/
def gwFail : Gateway where
  get_orders := .error ()
  cancel_order := fun _ => .resp true

/-- Witness for C6: a failing `get_orders` yields a `0` return. -/
theorem cleanup_stale_orders_outcome_witness :
    OrderUtils.cleanup_stale_orders gwFail none 120 = 0 :=
  (cleanup_stale_orders_outcome gwFail none 120).1 () rfl

/-- A stale `'new'` order for AAPL with a truthy id. -/
def orderAaplStale : Order :=
  { status := some "new"
    created_at := .dt { aware := true, ageSeconds := 150 }
    id := some "o1"
    symbol := some "AAPL" }

/-- A gateway holding exactly the stale AAPL order, whose cancellations all
succeed. -/
def gwAapl : Gateway where
  get_orders := .ok [orderAaplStale]
  cancel_order := fun _ => .resp true

/-- C10 counterexample: called with the non-`None` symbol `""`, the cleanup
cancels the stale AAPL order even though its symbol differs from `""` —
`if symbol:` treats the empty string like `None`, so the claim that a
non-`None` symbol restricts cancellation to that symbol fails. -/
theorem cleanup_symbol_scoping_counterexample :
    OrderUtils.cleanup_cancel_calls gwAapl (some "") 120 = ["o1"] ∧
    OrderUtils.cleanup_stale_orders gwAapl (some "") 120 = 1 ∧
    gwAapl.get_orders = .ok [orderAaplStale] ∧
    orderAaplStale.id = some "o1" ∧
    orderAaplStale.symbol = some "AAPL" ∧
    some "AAPL" ≠ (some "" : Option String) := by
  exact ⟨rfl, rfl, rfl, rfl, rfl, by decide⟩

/-- C10 (amended): with a truthy (non-`None`, non-empty) symbol `s`, every
issued `cancel_order` call belongs to an open order whose symbol equals `s`;
with `symbol = None` or the empty string, all open orders are considered. -/
theorem cleanup_symbol_scoping :
    ∀ (gw : Gateway) (T : ℚ) (l : List Order), gw.get_orders = .ok l →
      (∀ s : String, s.isEmpty = false →
        ∀ oid ∈ OrderUtils.cleanup_cancel_calls gw (some s) T,
          ∃ o ∈ l, o.id = some oid ∧ o.symbol = some s ∧
            (OrderUtils.is_order_stale o T).1 = true) ∧
      OrderUtils.cleanup_targets l none = l ∧
      (∀ s : String, s.isEmpty = true →
        OrderUtils.cleanup_targets l (some s) = l) := by
  intro gw T l hg
  refine ⟨?_, rfl, ?_⟩
  · intro s hs oid hmem
    by_cases hl : l.isEmpty
    · simp [OrderUtils.cleanup_cancel_calls, hg, hl] at hmem
    · simp only [OrderUtils.cleanup_cancel_calls, hg, hl, if_false] at hmem
      obtain ⟨o, hol, hid, hst⟩ := cleanup_loop_mem_src gw T _ oid hmem
      rw [show OrderUtils.cleanup_targets l (some s) =
            l.filter (fun order => order.symbol == some s) by
          simp [OrderUtils.cleanup_targets, hs]] at hol
      obtain ⟨hml, hsym⟩ := List.mem_filter.mp hol
      exact ⟨o, hml, hid, by simpa using hsym, hst⟩
  · intro s hs
    simp [OrderUtils.cleanup_targets, hs]

/-- Witness for C10 applied to the AAPL gateway with symbol `"AAPL"`. -/
theorem cleanup_symbol_scoping_witness :
    ∃ o ∈ [orderAaplStale], o.id = some "o1" ∧ o.symbol = some "AAPL" ∧
      (OrderUtils.is_order_stale o 120).1 = true := by
  exact (cleanup_symbol_scoping gwAapl 120 [orderAaplStale] rfl).1
    "AAPL" rfl "o1" (by decide)

theorem dictGet_map_replace_self (d : Dict) (k : String) (v : Value)
    (h : dictHasKey d k = true) :
    dictGet (d.map (fun kv => if kv.1 = k then (k, v) else kv)) k = some v := by
  induction d with
  | nil => cases h
  | cons head rest ih =>
    obtain ⟨k₁, w⟩ := head
    simp only [List.map_cons]
    by_cases hk : k₁ = k
    · rw [show (if (k₁, w).1 = k then (k, v) else (k₁, w)) = (k, v) from if_pos hk]
      simp [dictGet]
    · rw [show (if (k₁, w).1 = k then (k, v) else (k₁, w)) = (k₁, w) from if_neg hk]
      have h₁ : dictHasKey rest k = true := by
        simpa [dictHasKey, hk] using h
      simpa [dictGet, hk] using ih h₁

theorem dictGet_map_replace_other (d : Dict) (k k' : String) (v : Value)
    (h : k' ≠ k) :
    dictGet (d.map (fun kv => if kv.1 = k then (k, v) else kv)) k' =
      dictGet d k' := by
  induction d with
  | nil => rfl
  | cons head rest ih =>
    obtain ⟨k₁, w⟩ := head
    simp only [List.map_cons]
    by_cases hk : k₁ = k
    · rw [show (if (k₁, w).1 = k then (k, v) else (k₁, w)) = (k, v) from if_pos hk]
      have hkk : ¬ k = k' := fun he => h he.symm
      have hk₁k' : ¬ k₁ = k' := hk ▸ hkk
      simp [dictGet, hkk, hk₁k', ih]
    · rw [show (if (k₁, w).1 = k then (k, v) else (k₁, w)) = (k₁, w) from if_neg hk]
      by_cases hk' : k₁ = k'
      · simp [dictGet, hk']
      · simp [dictGet, hk', ih]

theorem dictGet_append_single_self (d : Dict) (k : String) (v : Value)
    (h : dictHasKey d k = false) :
    dictGet (d ++ [(k, v)]) k = some v := by
  induction d with
  | nil => simp [dictGet]
  | cons head rest ih =>
    obtain ⟨k₁, w⟩ := head
    have hk : ¬ k₁ = k := by
      intro he
      simp [dictHasKey, he] at h
    have h₁ : dictHasKey rest k = false := by
      simpa [dictHasKey, hk] using h
    simpa [dictGet, hk] using ih h₁

theorem dictGet_append_single_other (d : Dict) (k k' : String) (v : Value)
    (h : k' ≠ k) :
    dictGet (d ++ [(k, v)]) k' = dictGet d k' := by
  induction d with
  | nil =>
    have hkk : ¬ k = k' := fun he => h he.symm
    simp [dictGet, hkk]
  | cons head rest ih =>
    obtain ⟨k₁, w⟩ := head
    by_cases hk' : k₁ = k'
    · simp [dictGet, hk']
    · simp [dictGet, hk', ih]

theorem dictGet_dictSet_self (d : Dict) (k : String) (v : Value) :
    dictGet (dictSet d k v) k = some v := by
  unfold dictSet
  by_cases h : dictHasKey d k
  · simpa [h] using dictGet_map_replace_self d k v h
  · simpa [h] using dictGet_append_single_self d k v (by simpa using h)

theorem dictGet_dictSet_other (d : Dict) (k k' : String) (v : Value)
    (h : k' ≠ k) :
    dictGet (dictSet d k v) k' = dictGet d k' := by
  unfold dictSet
  by_cases hh : dictHasKey d k
  · simpa [hh] using dictGet_map_replace_other d k k' v h
  · simpa [hh] using dictGet_append_single_other d k k' v h

/-- C8 counterexample: on a dictionary whose `max_active_positions` entry is
a string, the comparison `validated['max_active_positions'] < 10` raises
`TypeError`, so `validate_configuration` does not return a dictionary at
all — the claim's universal "for every input dictionary it returns a fresh
dictionary" fails at this input. -/
theorem validate_configuration_counterexample :
    ConfigurationValidator.validate_configuration
      [("max_active_positions", Value.str "many")] = none := rfl

/-- C8 (amended): for every input dictionary whose `max_active_positions`
entry, when present, is numeric, `validate_configuration` returns a fresh
dictionary (the caller's entries, the pair's first component, are unchanged)
in which the profit-taking keys carry the standardized lists,
`max_active_positions` is `30` when the input value was below `10` and the
input value otherwise (absent when absent), and every other key keeps its
input value. -/
theorem validate_configuration_frame :
    ∀ d : Dict,
      (∀ v, dictGet d "max_active_positions" = some v → ∃ q, v = Value.num q) →
      ∃ out, ConfigurationValidator.validate_configuration d = some (d, out) ∧
        dictGet out "profit_taking_levels" =
          some (Value.numList [5, 8, 12, 20]) ∧
        dictGet out "profit_taking_percentages" =
          some (Value.numList [20/100, 30/100, 50/100, 75/100]) ∧
        (∀ q : ℚ, dictGet d "max_active_positions" = some (Value.num q) →
          dictGet out "max_active_positions" =
            some (Value.num (if q < 10 then 30 else q))) ∧
        (dictGet d "max_active_positions" = none →
          dictGet out "max_active_positions" = none) ∧
        (∀ k, k ≠ "max_active_positions" → k ≠ "profit_taking_levels" →
          k ≠ "profit_taking_percentages" → dictGet out k = dictGet d k) := by
  intro d hnum
  cases hv : dictGet d "max_active_positions" with
  | none =>
    refine ⟨dictSet (dictSet d "profit_taking_levels" (Value.numList [5, 8, 12, 20]))
        "profit_taking_percentages" (Value.numList [20/100, 30/100, 50/100, 75/100]),
      ?_, ?_, ?_, ?_, ?_, ?_⟩
    · simp [ConfigurationValidator.validate_configuration, hv,
        ConfigurationValidator.get_profit_taking_config]
    · rw [dictGet_dictSet_other _ _ _ _ (by decide), dictGet_dictSet_self]
    · rw [dictGet_dictSet_self]
    · intro q hq
      exact Option.noConfusion hq
    · intro _
      rw [dictGet_dictSet_other _ _ _ _ (by decide),
        dictGet_dictSet_other _ _ _ _ (by decide)]
      exact hv
    · intro k hk1 hk2 hk3
      rw [dictGet_dictSet_other _ _ _ _ hk3, dictGet_dictSet_other _ _ _ _ hk2]
  | some v =>
    obtain ⟨q, rfl⟩ := hnum v hv
    by_cases hq : q < 10
    · have hlt : pyLtNum (Value.num q) 10 = some true := by
        simp [pyLtNum, hq]
      refine ⟨dictSet (dictSet (dictSet d "max_active_positions" (Value.num 30))
          "profit_taking_levels" (Value.numList [5, 8, 12, 20]))
          "profit_taking_percentages" (Value.numList [20/100, 30/100, 50/100, 75/100]),
        ?_, ?_, ?_, ?_, ?_, ?_⟩
      · simp [ConfigurationValidator.validate_configuration, hv, hlt,
          ConfigurationValidator.get_profit_taking_config]
      · rw [dictGet_dictSet_other _ _ _ _ (by decide), dictGet_dictSet_self]
      · rw [dictGet_dictSet_self]
      · intro q' hq'
        have hqe := Option.some.inj hq'
        injection hqe with hqe'
        subst hqe'
        rw [if_pos hq, dictGet_dictSet_other _ _ _ _ (by decide),
          dictGet_dictSet_other _ _ _ _ (by decide), dictGet_dictSet_self]
      · intro hnone
        exact Option.noConfusion hnone
      · intro k hk1 hk2 hk3
        rw [dictGet_dictSet_other _ _ _ _ hk3, dictGet_dictSet_other _ _ _ _ hk2,
          dictGet_dictSet_other _ _ _ _ hk1]
    · have hlt : pyLtNum (Value.num q) 10 = some false := by
        simp [pyLtNum, hq]
      refine ⟨dictSet (dictSet d "profit_taking_levels" (Value.numList [5, 8, 12, 20]))
          "profit_taking_percentages" (Value.numList [20/100, 30/100, 50/100, 75/100]),
        ?_, ?_, ?_, ?_, ?_, ?_⟩
      · simp [ConfigurationValidator.validate_configuration, hv, hlt,
          ConfigurationValidator.get_profit_taking_config]
      · rw [dictGet_dictSet_other _ _ _ _ (by decide), dictGet_dictSet_self]
      · rw [dictGet_dictSet_self]
      · intro q' hq'
        have hqe := Option.some.inj hq'
        injection hqe with hqe'
        subst hqe'
        rw [if_neg hq, dictGet_dictSet_other _ _ _ _ (by decide),
          dictGet_dictSet_other _ _ _ _ (by decide)]
        exact hv
      · intro hnone
        exact Option.noConfusion hnone
      · intro k hk1 hk2 hk3
        rw [dictGet_dictSet_other _ _ _ _ hk3, dictGet_dictSet_other _ _ _ _ hk2]

/-- Witness for C8 on a concrete dictionary with a low position limit and an
unrelated key. -/
theorem validate_configuration_frame_witness :
    ∃ out, ConfigurationValidator.validate_configuration
        [("max_active_positions", Value.num 5), ("other_key", Value.str "x")] =
      some ([("max_active_positions", Value.num 5), ("other_key", Value.str "x")],
        out) ∧
      dictGet out "max_active_positions" = some (Value.num 30) ∧
      dictGet out "other_key" = some (Value.str "x") := by
  obtain ⟨out, h1, -, -, h4, -, h6⟩ :=
    validate_configuration_frame
      [("max_active_positions", Value.num 5), ("other_key", Value.str "x")]
      (by
        intro v hv
        simp [dictGet] at hv
        exact ⟨5, hv.symm⟩)
  refine ⟨out, h1, ?_, ?_⟩
  · have h := h4 5 rfl
    rwa [if_pos (by norm_num : (5 : ℚ) < 10)] at h
  · rw [h6 "other_key" (by decide) (by decide) (by decide)]
    rfl

theorem budget_error_mem_iff (key sec : Option String) (rl : RateLimitConfig) :
    (∃ t m, ConfigError.budgetAllocationExceedsLimit t m ∈
        validate_configuration_errors key sec rl) ↔
      ((rl.budget_allocation.map Prod.snd).sum : ℤ) >
        pyInt ((rl.max_requests_per_minute : ℚ) * rl.rate_limit_buffer) := by
  have hrisk : ¬ RISK_CONFIG.max_position_risk_pct > 5 := by
    simp only [RISK_CONFIG]
    norm_num
  have hdd : ¬ RISK_CONFIG.max_daily_drawdown_pct > 10 := by
    simp only [RISK_CONFIG]
    norm_num
  have hwl : ¬ WATCHLIST_CONFIG_max_size > 50 := by
    simp only [WATCHLIST_CONFIG_max_size]
    norm_num
  constructor
  · rintro ⟨t, m, hmem⟩
    by_cases hcond : ((rl.budget_allocation.map Prod.snd).sum : ℤ) >
        pyInt ((rl.max_requests_per_minute : ℚ) * rl.rate_limit_buffer)
    · exact hcond
    · exfalso
      unfold validate_configuration_errors at hmem
      rw [if_neg hcond, if_neg hrisk, if_neg hdd, if_neg hwl, List.append_nil,
        List.append_nil, List.append_nil, List.append_nil] at hmem
      rcases List.mem_append.mp hmem with ha | hb
      · split at ha <;> simp at ha
      · split at hb <;> simp at hb
  · intro hcond
    refine ⟨(rl.budget_allocation.map Prod.snd).sum,
      pyInt ((rl.max_requests_per_minute : ℚ) * rl.rate_limit_buffer), ?_⟩
    unfold validate_configuration_errors
    rw [if_pos hcond]
    exact List.mem_append_left _ (List.mem_append_left _ (List.mem_append_left _
      (List.mem_append_right _ (List.mem_singleton_self _))))

/-- C3: `validate_configuration` reports a budget-allocation error exactly
when the category quotas sum beyond `int(max_requests_per_minute ×
rate_limit_buffer)`; with the shipped values the quota sum is 170, the limit
is `int(200 × 0.85) = 170`, so no budget error is produced; and the
`ValueError` abort happens exactly when the error list is non-empty. -/
theorem budget_validation_spec :
    (∀ (key sec : Option String) (rl : RateLimitConfig),
      (∃ t m, ConfigError.budgetAllocationExceedsLimit t m ∈
          validate_configuration_errors key sec rl) ↔
        ((rl.budget_allocation.map Prod.snd).sum : ℤ) >
          pyInt ((rl.max_requests_per_minute : ℚ) * rl.rate_limit_buffer)) ∧
    (RATE_LIMIT_CONFIG.budget_allocation.map Prod.snd).sum = 170 ∧
    pyInt ((RATE_LIMIT_CONFIG.max_requests_per_minute : ℚ) *
        RATE_LIMIT_CONFIG.rate_limit_buffer) = 170 ∧
    (∀ (key sec : Option String) (t : ℕ) (m : ℤ),
      ConfigError.budgetAllocationExceedsLimit t m ∉
        validate_configuration_errors key sec RATE_LIMIT_CONFIG) ∧
    (∀ (key sec : Option String) (rl : RateLimitConfig),
      validate_configuration key sec rl = .ok true ↔
        validate_configuration_errors key sec rl = []) := by
  have hsum : (RATE_LIMIT_CONFIG.budget_allocation.map Prod.snd).sum = 170 := rfl
  have hprod : ((RATE_LIMIT_CONFIG.max_requests_per_minute : ℚ) *
      RATE_LIMIT_CONFIG.rate_limit_buffer) = 170 := by
    simp only [RATE_LIMIT_CONFIG]
    norm_num
  have hmax : pyInt ((RATE_LIMIT_CONFIG.max_requests_per_minute : ℚ) *
      RATE_LIMIT_CONFIG.rate_limit_buffer) = 170 := by
    rw [hprod]
    unfold pyInt
    rw [if_neg (by norm_num : ¬ (170 : ℚ) < 0)]
    simp
  refine ⟨budget_error_mem_iff, hsum, hmax, ?_, ?_⟩
  · intro key sec t m hmem
    have h := (budget_error_mem_iff key sec RATE_LIMIT_CONFIG).mp ⟨t, m, hmem⟩
    rw [hsum, hmax] at h
    exact absurd h (by norm_num)
  · intro key sec rl
    unfold validate_configuration
    constructor
    · intro h
      cases hl : validate_configuration_errors key sec rl with
      | nil => rfl
      | cons a as =>
        rw [hl] at h
        simp at h
    · intro h
      simp [h]

/-- Witness for C3: no budget error is reported with credentials set and the
shipped rate-limit configuration. -/
theorem budget_validation_spec_witness :
    ConfigError.budgetAllocationExceedsLimit 170 170 ∉
      validate_configuration_errors (some "key") (some "secret") RATE_LIMIT_CONFIG :=
  budget_validation_spec.2.2.2.1 (some "key") (some "secret") 170 170

/-- C4 counterexample: the scale-out fractions of
`ConfigurationValidator.get_profit_taking_config` sum to 1.75, so the claim
that every profit-taking ladder's fractions sum to at most 1 fails on this
ladder. -/
theorem profit_ladder_sum_counterexample :
    ConfigurationValidator.get_profit_taking_config.2.sum = 7/4 ∧
    ¬ ConfigurationValidator.get_profit_taking_config.2.sum ≤ 1 := by
  constructor <;>
    norm_num [ConfigurationValidator.get_profit_taking_config,
      List.sum_cons, List.sum_nil]

/-- C4 (amended): both ladders pair equal-length lists with strictly
ascending levels; the `RISK_CONFIG` fractions sum to exactly 1 (within the
claimed bound), while the `get_profit_taking_config` fractions sum to 1.75,
exceeding 1. -/
theorem profit_ladders_shape :
    RISK_CONFIG.profit_taking_levels.length =
        RISK_CONFIG.profit_taking_percentages.length ∧
    List.Chain' (· < ·) RISK_CONFIG.profit_taking_levels ∧
    RISK_CONFIG.profit_taking_percentages.sum = 1 ∧
    ConfigurationValidator.get_profit_taking_config.1.length =
        ConfigurationValidator.get_profit_taking_config.2.length ∧
    List.Chain' (· < ·) ConfigurationValidator.get_profit_taking_config.1 ∧
    ConfigurationValidator.get_profit_taking_config.2.sum = 7/4 := by
  refine ⟨rfl, ?_, ?_, rfl, ?_, ?_⟩ <;>
    norm_num [RISK_CONFIG, ConfigurationValidator.get_profit_taking_config,
      List.chain'_cons, List.chain'_singleton, List.sum_cons, List.sum_nil]

/-- C7: every one of the five `MarketRegime` values has a screening profile
in `SCREENING_CRITERIA['regime_criteria']`, whose keys are exactly the five
regimes. -/
theorem regime_criteria_covers_all_regimes :
    (∀ r : MarketRegime,
      (SCREENING_CRITERIA.regime_criteria.lookup r).isSome = true) ∧
    SCREENING_CRITERIA.regime_criteria.map Prod.fst =
      [.BULL_TRENDING, .BEAR_TRENDING, .VOLATILE_RANGE,
        .SECTOR_ROTATION, .LOW_VOLATILITY] := by
  refine ⟨fun r => ?_, rfl⟩
  cases r <;> rfl
